import Mathlib

/-!
A shallow embedding of the room session manager and message-fan-out engine of
the Tradutor-Universal repository (src/main.py, src/tts_service.py,
src/translator_service.py), together with theorems settling the frozen claims
about it.  Python dicts are modelled by association lists in insertion order,
Python `None`/missing values by `Option`, exceptions by `Except`, and the
per-connection send primitive by emission of `(recipient, event)` pairs (a
send attempt; per-recipient try/except in the source swallows send failures).
-/

namespace Tradutor

/-- One connection session (dataclass `User` in src/main.py).  The physical
websocket is identified by the string `ws`; `sessionId` (history bookkeeping)
carries no state that the claims observe and is omitted. -/
structure User where
  ws : String
  connectionId : String
  userId : String
  language : String
  name : String
  roomId : String := ""
  role : String := "speaker"
  avatarUrl : Option String := none
  deriving Repr, DecidableEq

/-- One room (dataclass `Room` in src/main.py).  `users` is the dict keyed by
connection id, in insertion order. -/
structure Room where
  id : String
  name : String
  users : List (String × User)
  isPublic : Bool := true
  password : Option String := none
  createdBy : Option String := none
  activePresenter : Option String := none
  deriving Repr, DecidableEq

/-- The Redis-backed directory cache: which room ids have a `rooms:{id}` hash
entry, and the `rooms:public` set. -/
structure Directory where
  entries : List String
  publicSet : List String
  deriving Repr, DecidableEq

/-- Process state the claims observe: the global `rooms` registry (dict keyed
by room id, insertion order) plus the directory cache. -/
structure ServerState where
  rooms : List (String × Room)
  dir : Directory
  deriving Repr, DecidableEq

/-- The outbound `message` event built in `broadcast_translation`. -/
structure Message where
  senderId : String
  senderName : String
  senderLang : String
  originalText : String
  translatedText : String
  targetLang : String
  audioUrl : Option String
  isSelf : Bool
  roomId : String
  deriving Repr, DecidableEq

/-- An inbound WebRTC signaling payload (`signal_offer`/`signal_answer`/
`signal_ice`): the declared type, optional `target` and `sender` fields, and
the rest of the JSON object kept verbatim as `body`. -/
structure SignalMsg where
  msgType : String
  target : Option String
  sender : Option String
  body : String
  deriving Repr, DecidableEq

/-- One participant entry of the `participants` event. -/
structure ParticipantInfo where
  id : String
  name : String
  language : String
  role : String
  avatarUrl : Option String
  deriving Repr, DecidableEq

/-- Outbound event kinds sent over a websocket (src/main.py). -/
inductive OutEvent where
  | errorEvent (message : String)
  | roomJoined (roomId roomName userName userId : String)
  | participants (ps : List ParticipantInfo)
  | systemMsg (message : String)
  | messageEvent (m : Message)
  | presentationStarted (presenterId presenterName : String)
  | newViewer (viewerId viewerName : String)
  | presentationStopped (presenterId : String)
  | signalEvent (s : SignalMsg)
  deriving Repr, DecidableEq

/-- A call to an external collaborator recorded by the dispatcher: a
Translation Oracle call `translator.translate(text, source, target)` or a
Speech Synthesizer call `tts.generate_audio(text, lang)`. -/
inductive CallEvent where
  | translateCall (text src dst : String)
  | ttsCall (text lang : String)
  deriving Repr, DecidableEq

/-- Behaviour of the external collaborators.  `translate` never raises:
`TranslationService.translate` (src/translator_service.py) catches every
exception internally and returns the original text.  `tts` models
`TTSService.generate_audio` (src/tts_service.py): it may raise
(`Except.error`) or return an optional audio file path. -/
structure Oracles where
  translate : String → String → String → String
  tts : String → String → Except Unit (Option String)

/-- Handlers of the `Active` receive loop of `websocket_endpoint`. -/
inductive Handler where
  | speech
  | signaling
  | startPresentation
  | stopPresentation
  | ignored
  deriving Repr, DecidableEq

/-- An inbound message of the receive loop: its optional `type`, `text` and
`target` fields. -/
structure InboundMsg where
  msgType : Option String
  text : Option String
  target : Option String
  deriving Repr, DecidableEq

/-! ## String helpers mirroring the Python primitives used by the source -/

/-- Python string truthiness-relevant whitespace for `str.strip()` (ASCII
fragment, which is all the source ever feeds it). -/
def pyIsSpace (c : Char) : Bool :=
  c == ' ' || c == '\t' || c == '\n' || c == '\r' ||
    c == Char.ofNat 11 || c == Char.ofNat 12

/-- `s.strip()` on ASCII strings. -/
def pyStrip (s : String) : String :=
  String.mk (((s.toList.dropWhile pyIsSpace).reverse.dropWhile pyIsSpace).reverse)

/-- `s.upper()` on ASCII strings. -/
def pyUpper (s : String) : String :=
  String.mk (s.toList.map Char.toUpper)

/-- `s.split('-')[0]`: the part of `s` before the first dash. -/
def primaryTag (s : String) : String :=
  String.mk (s.toList.takeWhile (fun c => c ≠ '-'))

/-- Python `dict.get(k)` over an insertion-ordered association list. -/
def dictGet {α : Type} (k : String) : List (String × α) → Option α
  | [] => none
  | (k₂, v) :: rest => if k₂ = k then some v else dictGet k rest

/-! ## Language tag normalization (src/main.py lines 259-268) -/

/-- The fixed `lang_map` table of `broadcast_translation`. -/
def langMap (s : String) : Option String :=
  if s = "pt-BR" then some "pt" else if s = "pt-PT" then some "pt"
  else if s = "en-US" then some "en" else if s = "en-GB" then some "en"
  else if s = "es-ES" then some "es" else if s = "es-MX" then some "es"
  else if s = "fr-FR" then some "fr" else if s = "de-DE" then some "de"
  else if s = "it-IT" then some "it" else if s = "ja-JP" then some "ja"
  else if s = "zh-CN" then some "zh-CN" else if s = "ko-KR" then some "ko"
  else none

/-- `lang_map.get(tag, tag.split('-')[0])`: canonical short language code. -/
def cleanLang (s : String) : String :=
  (langMap s).getD (primaryTag s)

/-! ## Fan-out dispatcher (`broadcast_translation`, src/main.py 252-338) -/

/-- The translated text / audio url produced for one target-language group. -/
structure GroupData where
  translatedText : String
  audioUrl : Option String
  deriving Repr, DecidableEq

/-- Public audio url for a synthesized file
(`f"/audio/{public_filename}"`; the random uuid component of the filename is
abstracted away, claims only observe presence/absence and the prefix shape). -/
def audioUrlFor (roomId lang : String) : String :=
  "/audio/tts_" ++ roomId ++ "_" ++ lang ++ ".mp3"

/-- `users_by_language` insertion: append `u` to the group keyed `l`, or add a
fresh group at the end (Python dict key insertion order). -/
def insertGroup (l : String) (u : User) :
    List (String × List User) → List (String × List User)
  | [] => [(l, [u])]
  | (k, us) :: rest =>
      if k = l then (k, us ++ [u]) :: rest else (k, us) :: insertGroup l u rest

/-- Grouping of the member snapshot by canonical target code
(src/main.py lines 271-276). -/
def groupByLang (users : List User) : List (String × List User) :=
  users.foldl (fun acc u => insertGroup (cleanLang u.language) u acc) []

/-- Processing of one target group (the `try` body, src/main.py 282-314):
skip translation when source and target canonical codes coincide, else call
the Translation Oracle; then call the Speech Synthesizer on the (possibly
translated) text.  The `except` arm sets
`{"translated_text": original_text, "audio_url": None}`.  Returns the
collaborator calls made together with the group's data. -/
def processGroup (oc : Oracles) (roomId srcClean text tgtClean : String) :
    List CallEvent × GroupData :=
  let step :=
    if srcClean = tgtClean then
      (([] : List CallEvent), text)
    else
      ([CallEvent.translateCall text srcClean tgtClean],
       oc.translate text srcClean tgtClean)
  match oc.tts step.2 tgtClean with
  | Except.ok audioPath =>
      (step.1 ++ [CallEvent.ttsCall step.2 tgtClean],
       { translatedText := step.2,
         audioUrl := audioPath.map (fun _ => audioUrlFor roomId tgtClean) })
  | Except.error _ =>
      (step.1 ++ [CallEvent.ttsCall step.2 tgtClean],
       { translatedText := text, audioUrl := none })

/-- The per-recipient `message` event (src/main.py lines 324-335). -/
def mkMessage (roomId : String) (sender : User) (text srcLang : String)
    (data : GroupData) (u : User) : Message :=
  { senderId := sender.userId
    senderName := sender.name
    senderLang := srcLang
    originalText := text
    translatedText := data.translatedText
    targetLang := u.language
    audioUrl := data.audioUrl
    isSelf := u.userId == sender.userId
    roomId := roomId }

/-- `broadcast_translation(room_id, sender, original_text, source_lang)`
applied to the member snapshot `activeUsers` (the room's `users.values()` in
insertion order).  Returns the collaborator call trace and the list of
delivered `(connection_id, message)` pairs, group by group. -/
def broadcastTranslation (oc : Oracles) (roomId : String) (sender : User)
    (text srcLang : String) (activeUsers : List User) :
    List CallEvent × List (String × Message) :=
  let srcClean := cleanLang srcLang
  let groups := groupByLang activeUsers
  let results := groups.map (fun g => (g.1, processGroup oc roomId srcClean text g.1))
  let langData := results.map (fun r => (r.1, r.2.2))
  let calls := (results.map (fun r => r.2.1)).flatten
  let sends := groups.flatMap (fun g =>
    match dictGet g.1 langData with
    | none => []
    | some data =>
        g.2.map (fun u => (u.connectionId, mkMessage roomId sender text srcLang data u)))
  (calls, sends)

/-- Number of Translation Oracle calls with target code `d` in a trace. -/
def countTranslate (d : String) (calls : List CallEvent) : Nat :=
  (calls.filter (fun c => match c with
    | CallEvent.translateCall _ _ dst => dst == d
    | _ => false)).length

/-- Number of Speech Synthesizer calls with language `l` in a trace. -/
def countTts (l : String) (calls : List CallEvent) : Nat :=
  (calls.filter (fun c => match c with
    | CallEvent.ttsCall _ lang => lang == l
    | _ => false)).length

/-! ## Broadcast helpers (src/main.py 209-250) -/

/-- `broadcast_participant_list`: the snapshot built from the room's users,
sent to every member (src/main.py 209-234). -/
def participantsOf (room : Room) : List ParticipantInfo :=
  room.users.map (fun p =>
    { id := p.2.userId, name := p.2.name, language := p.2.language,
      role := p.2.role, avatarUrl := p.2.avatarUrl })

/-- Delivery list of `broadcast_participant_list(room_id)`. -/
def broadcastParticipantList (room : Room) : List (String × OutEvent) :=
  room.users.map (fun p => (p.2.ws, OutEvent.participants (participantsOf room)))

/-- The skip test `if exclude_user and user.user_id == exclude_user` of
`broadcast_system_message` (Python truthiness: `None` and `""` are falsy). -/
def excludedBy (excl : Option String) (u : User) : Bool :=
  match excl with
  | none => false
  | some e => e != "" && u.userId == e

/-- `broadcast_system_message(room_id, message, exclude_user)`
(src/main.py 236-250). -/
def broadcastSystemMessage (room : Room) (message : String)
    (excl : Option String) : List (String × OutEvent) :=
  (room.users.filter (fun p => !(excludedBy excl p.2))).map
    (fun p => (p.2.ws, OutEvent.systemMsg message))

/-- The join notice call site (src/main.py line 555):
`broadcast_system_message(room_id, f"{user_name} joined the room",
exclude_user=None)`, run after the joiner was inserted, so `room` here already
contains the joiner. -/
def joinNotice (room : Room) (joinerName : String) : List (String × OutEvent) :=
  broadcastSystemMessage room (joinerName ++ " joined the room") none

/-! ## Registry primitives -/

/-- Replace the entry stored under `roomId`. -/
def setRoom (roomId : String) (room : Room) (l : List (String × Room)) :
    List (String × Room) :=
  l.map (fun p => if p.1 = roomId then (p.1, room) else p)

/-- `del rooms[room_id]`. -/
def delRoom (roomId : String) (l : List (String × Room)) :
    List (String × Room) :=
  l.filter (fun p => p.1 != roomId)

/-- The two steps of src/main.py 623-631: find the first connection entry
whose websocket is `ws`, then delete it.  Returns the remaining entries and
the removed connection id, if any. -/
def removeFirstByWs (ws : String) :
    List (String × User) → List (String × User) × Option String
  | [] => ([], none)
  | (cid, u) :: rest =>
      if u.ws = ws then (rest, some cid)
      else
        let r := removeFirstByWs ws rest
        ((cid, u) :: r.1, r.2)

/-! ## Disconnect cleanup (the `finally` block, src/main.py 614-649) -/

/-- The cleanup run when a connection's handler ends: remove the connection
from its room; if the room is now empty, delete it from the registry and from
the Redis directory (`delete rooms:{id}` and `srem rooms:public id`);
otherwise broadcast a leave notice (only when a `leaver` with a truthy name is
known) and the updated participant list to the remaining members.  The
best-effort `db.end_room_session` call touches no state the claims observe. -/
def cleanupDisconnect (st : ServerState) (roomId : Option String) (ws : String)
    (leaver : Option User) : ServerState × List (String × OutEvent) :=
  match roomId with
  | none => (st, [])
  | some rid =>
    match dictGet rid st.rooms with
    | none => (st, [])
    | some room =>
      let rem := removeFirstByWs ws room.users
      if rem.1.isEmpty then
        ({ rooms := delRoom rid st.rooms,
           dir := { entries := st.dir.entries.filter (fun i => i != rid),
                    publicSet := st.dir.publicSet.filter (fun i => i != rid) } },
         [])
      else
        let room2 := { room with users := rem.1 }
        let st2 := { st with rooms := setRoom rid room2 st.rooms }
        let leaveEvents :=
          match leaver with
          | some u =>
              if u.name ≠ "" then
                broadcastSystemMessage room2 (u.name ++ " left the room") (some u.userId)
              else []
          | none => []
        (st2, leaveEvents ++ broadcastParticipantList room2)

/-! ## Password gate of the join handshake (src/main.py 481-486) -/

/-- The test `if room.password and room.password != req_password` (a stored
password of `None` or `""` is falsy and never rejects). -/
def passwordRejects (room : Room) (reqPassword : String) : Bool :=
  match room.password with
  | none => false
  | some p => p != "" && p != reqPassword

/-- The password gate of a join against an existing room: on mismatch the
joiner is sent one `error` event, the socket is closed and the early `return`
triggers the `finally` cleanup with no user object created (`user = None`);
the result is `some (new state, emitted events, closed := true)`.  On `none`
the handler proceeds with the join. -/
def joinPasswordGate (st : ServerState) (roomId : String) (room : Room)
    (reqPassword : String) (joinerWs : String) :
    Option (ServerState × List (String × OutEvent) × Bool) :=
  if passwordRejects room reqPassword then
    let c := cleanupDisconnect st (some roomId) joinerWs none
    some (c.1, (joinerWs, OutEvent.errorEvent "Invalid Password") :: c.2, true)
  else none

/-! ## Late-join presentation replay (src/main.py 528-552) -/

/-- Events emitted right after a successful join when a presentation is
active: `room` is the state after the joiner was inserted (line 501 runs
first).  `if room_obj.active_presenter and room_obj.active_presenter !=
user_id`: find the presenter's first connection; if found, send the joiner a
`presentation_started` and the presenter a `new_viewer`. -/
def lateJoinNotices (room : Room) (joiner : User) : List (String × OutEvent) :=
  match room.activePresenter with
  | none => []
  | some pid =>
    if pid ≠ "" ∧ pid ≠ joiner.userId then
      match room.users.find? (fun p => p.2.userId == pid) with
      | some pr =>
          [(joiner.ws, OutEvent.presentationStarted pid pr.2.name),
           (pr.2.ws, OutEvent.newViewer joiner.userId joiner.name)]
      | none => []
    else []

/-! ## WebRTC signaling relay (src/main.py 572-585) -/

/-- Relay of a `signal_offer`/`signal_answer`/`signal_ice` event inside
`room` (the caller has already checked `room_id in rooms`): if the `target`
field is truthy, the first member whose account id equals it receives the
payload verbatim with `data["sender"] = user_id` set; otherwise nothing is
delivered and no error is raised. -/
def relaySignal (room : Room) (senderId : String) (msg : SignalMsg) :
    List (String × OutEvent) :=
  match msg.target with
  | none => []
  | some t =>
    if t ≠ "" then
      match room.users.find? (fun p => p.2.userId == t) with
      | some pr => [(pr.2.ws, OutEvent.signalEvent { msg with sender := some senderId })]
      | none => []
    else []

/-! ## Receive-loop dispatch (src/main.py 559-608) -/

/-- `message_type = data.get("type", "speech")` followed by the if/elif
chain of the receive loop; an unrecognized type falls through and is
ignored. -/
def classify (m : InboundMsg) : Handler :=
  let t := m.msgType.getD "speech"
  if t = "speech" then Handler.speech
  else if t = "signal_offer" ∨ t = "signal_answer" ∨ t = "signal_ice" then
    Handler.signaling
  else if t = "start_presentation" then Handler.startPresentation
  else if t = "stop_presentation" then Handler.stopPresentation
  else Handler.ignored

/-! ## Room id handling of the handshake (src/main.py 415-423, 451-453) -/

/-- `init_msg.get("room_id", "").strip().upper()`. -/
def normalizeRoomId (s : String) : String :=
  pyUpper (pyStrip s)

/-- The id actually used for the session's room: a fresh generated id
(`str(uuid.uuid4())[:6].upper()`, supplied here as `fresh`) when the
normalized request is empty or the `CREATE` sentinel, else the normalized
request (`if not req_room_id or req_room_id == "CREATE"`). -/
def roomIdUsed (req fresh : String) : String :=
  let r := normalizeRoomId req
  if r = "" ∨ r = "CREATE" then fresh else r

/-! ## Concrete instances used by witnesses and counterexamples -/

/-- A concrete connection session. -/
def exUser (ws cid uid lang nm : String) : User :=
  { ws := ws, connectionId := cid, userId := uid, language := lang, name := nm }

/-- A concrete room: member map, active presenter, password. -/
def exRoom (users : List (String × User)) (pres : Option String)
    (pw : Option String) : Room :=
  { id := "R1", name := "Room", users := users, activePresenter := pres,
    password := pw }

/-- Second connection of Alice's own account (same `userId`, fresh
connection id and websocket). -/
def uAliceBis : User := exUser "w2" "c2" "A" "en" "Alice"

/-- Alice, account id A, English. -/
def uAlice : User := exUser "w1" "c1" "A" "en" "Alice"

/-- Bob, account id B, French. -/
def uBob : User := exUser "w2" "c2" "B" "fr" "Bob"

/-- A one-member room guarded by the password "secret". -/
def roomSecret : Room := exRoom [("c1", uAlice)] none (some "secret")

/-- A one-member room with no password. -/
def roomSolo : Room := exRoom [("c1", uAlice)] none none

/-- A two-member room with an active presentation by account A. -/
def roomPresA : Room := exRoom [("c1", uAlice), ("c2", uAliceBis)] (some "A") none

/-- Alice presenting to Bob. -/
def roomPresAB : Room := exRoom [("c1", uAlice), ("c2", uBob)] (some "A") none

/-- Alice and Bob, no presentation. -/
def roomAB : Room := exRoom [("c1", uAlice), ("c2", uBob)] none none

/-- A registry/directory state holding only `roomSecret` under id R1. -/
def stSecret : ServerState :=
  { rooms := [("R1", roomSecret)],
    dir := { entries := ["R1"], publicSet := ["R1"] } }

/-- A registry/directory state holding only `roomSolo` under id R1. -/
def stSolo : ServerState :=
  { rooms := [("R1", roomSolo)],
    dir := { entries := ["R1"], publicSet := ["R1"] } }

/-! ## Registry helper lemmas -/

/-- When no entry's websocket matches, the removal scan is the identity. -/
theorem removeFirstByWs_not_found (ws : String) (l : List (String × User))
    (h : ∀ p ∈ l, p.2.ws ≠ ws) : removeFirstByWs ws l = (l, none) := by
  induction l with
  | nil => rfl
  | cons a t ih =>
      unfold removeFirstByWs
      rw [if_neg (h a (List.mem_cons_self a t))]
      rw [ih (fun p hp => h p (List.mem_cons_of_mem a hp))]

/-- A key absent from an association list looks up to `none`. -/
theorem dictGet_eq_none {α : Type} (k : String) (l : List (String × α))
    (h : ∀ p ∈ l, p.1 ≠ k) : dictGet k l = none := by
  induction l with
  | nil => rfl
  | cons a t ih =>
      unfold dictGet
      rw [if_neg (h a (List.mem_cons_self a t))]
      exact ih (fun p hp => h p (List.mem_cons_of_mem a hp))

/-- Replacing a key's entry by the value already stored there changes
nothing, provided keys are unique (as they are in a Python dict). -/
theorem setRoom_self (rid : String) (room : Room) (l : List (String × Room))
    (hnd : (l.map Prod.fst).Nodup) (hget : dictGet rid l = some room) :
    setRoom rid room l = l := by
  induction l with
  | nil => rfl
  | cons a t ih =>
      unfold dictGet at hget
      have hnd' : (a.1 :: t.map Prod.fst).Nodup := by
        rw [← List.map_cons]; exact hnd
      have hnd2 := List.nodup_cons.mp hnd'
      by_cases hk : a.1 = rid
      · rw [if_pos hk] at hget
        have ha : room = a.2 := by injection hget with hv; exact hv.symm
        have htail : ∀ p ∈ t, p.1 ≠ rid := by
          intro p hp hpe
          exact hnd2.1 (by rw [hk, ← hpe]; exact List.mem_map_of_mem Prod.fst hp)
        unfold setRoom
        rw [List.map_cons, if_pos hk, ha]
        have hrest : t.map (fun p => if p.1 = rid then (p.1, a.2) else p) =
            t.map id := by
          apply List.map_congr_left
          intro p hp
          rw [if_neg (htail p hp)]; rfl
        rw [hrest, List.map_id]
      · rw [if_neg hk] at hget
        unfold setRoom
        rw [List.map_cons, if_neg hk]
        have := ih hnd2.2 hget
        unfold setRoom at this
        rw [this]

/-! ## Claim C3 — wrong password rejects without side effects -/

/-- C3: a join attempt against an existing room holding a non-empty password
that differs from the supplied one fires the reject gate: the whole server
state (this room's member map, every other room, and the directory cache) is
unchanged, the joiner's fresh connection is sent exactly one event, the
error event, and the connection is closed. -/
theorem c3_wrong_password_join (st : ServerState)
    (roomId reqPassword joinerWs : String) (room : Room)
    (hnd : (st.rooms.map Prod.fst).Nodup)
    (hroom : dictGet roomId st.rooms = some room)
    (hrej : passwordRejects room reqPassword = true)
    (hne : room.users ≠ [])
    (hfresh : ∀ p ∈ room.users, p.2.ws ≠ joinerWs) :
    joinPasswordGate st roomId room reqPassword joinerWs =
      some (st,
        (joinerWs, OutEvent.errorEvent "Invalid Password")
          :: broadcastParticipantList room,
        true) ∧
    (((joinerWs, OutEvent.errorEvent "Invalid Password")
          :: broadcastParticipantList room).filter
        (fun e => e.1 == joinerWs)).map Prod.snd =
      [OutEvent.errorEvent "Invalid Password"] := by
  have hrem : removeFirstByWs joinerWs room.users = (room.users, none) :=
    removeFirstByWs_not_found joinerWs room.users hfresh
  have hemp : room.users.isEmpty = false := by
    cases hu : room.users with
    | nil => exact absurd hu hne
    | cons a t => rfl
  constructor
  · have hclean : cleanupDisconnect st (some roomId) joinerWs none =
        (st, broadcastParticipantList room) := by
      simp only [cleanupDisconnect, hroom, hrem, hemp, Bool.false_eq_true,
        if_false]
      rw [show (Room.mk room.id room.name room.users room.isPublic
          room.password room.createdBy room.activePresenter) = room from rfl]
      rw [setRoom_self roomId room st.rooms hnd hroom]
      rfl
    simp only [joinPasswordGate, hrej, if_true, hclean]
  · rw [List.filter_cons]
    have hrest : (broadcastParticipantList room).filter
        (fun e => e.1 == joinerWs) = [] := by
      rw [List.filter_eq_nil_iff]
      intro e he
      rcases List.mem_map.mp he with ⟨p, hp, hpe⟩
      have he1 : e.1 = p.2.ws := by rw [← hpe]
      simp [he1, hfresh p hp]
    simp only [beq_self_eq_true, if_true, hrest]
    rfl

/-- C3 witness. -/
theorem c3_wrong_password_join_witness :
    ((stSecret.rooms.map Prod.fst).Nodup ∧
     dictGet "R1" stSecret.rooms = some roomSecret ∧
     passwordRejects roomSecret "wrong" = true ∧
     roomSecret.users ≠ []) ∧
    (joinPasswordGate stSecret "R1" roomSecret "wrong" "w9" =
      some (stSecret,
        ("w9", OutEvent.errorEvent "Invalid Password")
          :: broadcastParticipantList roomSecret,
        true) ∧
     ((("w9", OutEvent.errorEvent "Invalid Password")
          :: broadcastParticipantList roomSecret).filter
        (fun e => e.1 == "w9")).map Prod.snd =
      [OutEvent.errorEvent "Invalid Password"]) :=
  ⟨⟨by decide, by decide, by decide, by decide⟩,
   c3_wrong_password_join stSecret "R1" "wrong" "w9" roomSecret
     (by decide) (by decide) (by decide) (by decide)
     (by intro p hp; simp [stSecret, roomSecret, exRoom] at hp; subst hp; decide)⟩

/-! ## Claim C4 — empty rooms vanish from registry and directory -/

/-- C4: (a) when the departing connection was the room's last member, the
cleanup removes the room from the registry and from both directory-cache
structures; (b) the cleanup preserves the invariant that every registered
room has at least one member, so no zero-member room is left in the registry
by a leave event; (c) cleanup for an already-removed room id is a no-op, not
an error. -/
theorem c4_empty_room_cleanup (st : ServerState) (rid ws : String)
    (leaver : Option User) :
    (∀ room, dictGet rid st.rooms = some room →
        (removeFirstByWs ws room.users).1 = [] →
        dictGet rid (cleanupDisconnect st (some rid) ws leaver).1.rooms = none ∧
        rid ∉ (cleanupDisconnect st (some rid) ws leaver).1.dir.entries ∧
        rid ∉ (cleanupDisconnect st (some rid) ws leaver).1.dir.publicSet) ∧
    ((∀ p ∈ st.rooms, p.2.users ≠ []) →
        ∀ p ∈ (cleanupDisconnect st (some rid) ws leaver).1.rooms,
          p.2.users ≠ []) ∧
    (dictGet rid st.rooms = none →
        cleanupDisconnect st (some rid) ws leaver = (st, [])) := by
  refine ⟨?_, ?_, ?_⟩
  · intro room hget hrem
    have hclean : (cleanupDisconnect st (some rid) ws leaver).1 =
        { rooms := delRoom rid st.rooms,
          dir := { entries := st.dir.entries.filter (fun i => i != rid),
                   publicSet := st.dir.publicSet.filter (fun i => i != rid) } } := by
      simp only [cleanupDisconnect, hget, hrem, List.isEmpty_nil, if_true]
    rw [hclean]
    refine ⟨?_, ?_, ?_⟩
    · apply dictGet_eq_none
      intro p hp
      have := List.mem_filter.mp hp
      simpa [bne] using this.2
    · intro hmem
      have := List.mem_filter.mp hmem
      simp [bne] at this
    · intro hmem
      have := List.mem_filter.mp hmem
      simp [bne] at this
  · intro hinv p hp
    cases hget : dictGet rid st.rooms with
    | none =>
        simp only [cleanupDisconnect, hget] at hp
        exact hinv p hp
    | some room =>
        by_cases hemp : (removeFirstByWs ws room.users).1.isEmpty
        · simp only [cleanupDisconnect, hget, hemp, if_true] at hp
          have := List.mem_filter.mp hp
          exact hinv p this.1
        · simp only [cleanupDisconnect, hget, hemp, Bool.false_eq_true,
            if_false, setRoom] at hp
          rcases List.mem_map.mp hp with ⟨q, hq, hqe⟩
          by_cases hk : q.1 = rid
          · rw [if_pos hk] at hqe
            rw [← hqe]
            simpa [List.isEmpty_iff] using hemp
          · rw [if_neg hk] at hqe
            rw [← hqe]
            exact hinv q hq
  · intro hget
    simp only [cleanupDisconnect, hget]

/-- C4 witness. -/
theorem c4_empty_room_cleanup_witness :
    (dictGet "R1" stSolo.rooms = some roomSolo ∧
     (removeFirstByWs "w1" roomSolo.users).1 = []) ∧
    (dictGet "R1" (cleanupDisconnect stSolo (some "R1") "w1" none).1.rooms =
        none ∧
     "R1" ∉ (cleanupDisconnect stSolo (some "R1") "w1" none).1.dir.entries ∧
     "R1" ∉ (cleanupDisconnect stSolo (some "R1") "w1" none).1.dir.publicSet) ∧
    (cleanupDisconnect stSolo (some "R2") "w1" none = (stSolo, [])) :=
  ⟨⟨by decide, by decide⟩,
   (c4_empty_room_cleanup stSolo "R1" "w1" none).1 roomSolo
     (by decide) (by decide),
   (c4_empty_room_cleanup stSolo "R2" "w1" none).2.2 (by decide)⟩

/-! ## Claim C9 — room id normalization -/

/-- C9 (counterexample): the handshake room id " create " normalizes to
"CREATE", yet the id used for the room is the freshly generated one, not the
normalized supplied string, so "the id used is the supplied string with
surrounding whitespace stripped and letters uppercased" fails on this
input. -/
theorem c9_counterexample :
    normalizeRoomId " create " = "CREATE" ∧
    roomIdUsed " create " "A1B2C3" = "A1B2C3" ∧
    ("A1B2C3" : String) ≠ "CREATE" :=
  ⟨by decide, by decide, by decide⟩

/-- C9 (amended): whenever the supplied room id, stripped and uppercased, is
neither empty nor the CREATE sentinel, it is the id used; in particular
"  r1  " yields canonical id "R1". -/
theorem c9_room_id_normalization (req fresh : String)
    (h1 : normalizeRoomId req ≠ "") (h2 : normalizeRoomId req ≠ "CREATE") :
    roomIdUsed req fresh = normalizeRoomId req ∧
    normalizeRoomId "  r1  " = "R1" := by
  refine ⟨?_, by decide⟩
  unfold roomIdUsed
  simp [h1, h2]

/-- C9 witness. -/
theorem c9_room_id_normalization_witness :
    (normalizeRoomId "  r1  " ≠ "" ∧ normalizeRoomId "  r1  " ≠ "CREATE") ∧
    (roomIdUsed "  r1  " "ABCDEF" = normalizeRoomId "  r1  " ∧
     normalizeRoomId "  r1  " = "R1") :=
  ⟨⟨by decide, by decide⟩,
   c9_room_id_normalization "  r1  " "ABCDEF" (by decide) (by decide)⟩

/-! ## Claim C10 — missing type field defaults to speech -/

/-- C10: an inbound message of the receive loop lacking a "type" field is
dispatched to the speech handler, not to the ignored fallthrough. -/
theorem c10_missing_type_is_speech (m : InboundMsg) (h : m.msgType = none) :
    classify m = Handler.speech ∧ classify m ≠ Handler.ignored :=
  ⟨by simp [classify, h], by simp [classify, h]⟩

/-- C10 witness. -/
theorem c10_missing_type_is_speech_witness :
    (InboundMsg.mk none (some "hello") none).msgType = none ∧
    (classify (InboundMsg.mk none (some "hello") none) = Handler.speech ∧
     classify (InboundMsg.mk none (some "hello") none) ≠ Handler.ignored) :=
  ⟨rfl, c10_missing_type_is_speech (InboundMsg.mk none (some "hello") none) rfl⟩

/-! ## Claim C8 — signaling target resolution -/

/-- C8: a signaling event whose target matches no member's account id is
delivered to nobody and raises nothing; a matching target delivers exactly
one event, to the first matching member session, the payload kept verbatim
with the sender's identity attached. -/
theorem c8_signal_target_resolution (room : Room) (senderId : String)
    (msg : SignalMsg) :
    ((∀ t, msg.target = some t → ∀ p ∈ room.users, p.2.userId ≠ t) →
        relaySignal room senderId msg = []) ∧
    (∀ t pr, msg.target = some t → t ≠ "" →
        room.users.find? (fun p => p.2.userId == t) = some pr →
        relaySignal room senderId msg =
          [(pr.2.ws, OutEvent.signalEvent { msg with sender := some senderId })]) := by
  constructor
  · intro h
    unfold relaySignal
    cases ht : msg.target with
    | none => rfl
    | some t =>
        have hnone : room.users.find? (fun p => p.2.userId == t) = none := by
          rw [List.find?_eq_none]
          intro p hp
          simpa using h t ht p hp
        simp [hnone]
  · intro t pr ht hne hfind
    unfold relaySignal
    simp [ht, hne, hfind]

/-- C8 witness. -/
theorem c8_signal_target_resolution_witness :
    (relaySignal (exRoom [("c1", exUser "w1" "c1" "T" "en" "Tia")] none none)
        "S" { msgType := "signal_offer", target := some "T", sender := none,
              body := "sdp" } =
      [("w1", OutEvent.signalEvent
          { msgType := "signal_offer", target := some "T", sender := some "S",
            body := "sdp" })]) ∧
    (relaySignal (exRoom [("c1", exUser "w1" "c1" "T" "en" "Tia")] none none)
        "S" { msgType := "signal_ice", target := some "Z", sender := none,
              body := "cand" } = []) := by
  constructor
  · exact (c8_signal_target_resolution
        (exRoom [("c1", exUser "w1" "c1" "T" "en" "Tia")] none none) "S"
        { msgType := "signal_offer", target := some "T", sender := none,
          body := "sdp" }).2
      "T" ("c1", exUser "w1" "c1" "T" "en" "Tia") rfl (by decide) (by decide)
  · exact (c8_signal_target_resolution
        (exRoom [("c1", exUser "w1" "c1" "T" "en" "Tia")] none none) "S"
        { msgType := "signal_ice", target := some "Z", sender := none,
          body := "cand" }).1
      (by intro t htt p hp; cases htt; simp [exRoom] at hp; subst hp; decide)

/-! ## Claim C5 — late-join presentation replay -/

/-- C5 (counterexample): a second connection of the presenter's own account
joins a room with an active presentation and receives no
presentation_started event at all (the source skips the replay whenever the
joiner's account id equals the presenter id), refuting "every member that
joins a room in which a presenter is currently active receives exactly one
presentation_started event". -/
theorem c5_counterexample :
    roomPresA.activePresenter = some "A" ∧
    lateJoinNotices roomPresA uAliceBis = [] :=
  ⟨rfl, by decide⟩

/-- C5 (amended): when a presentation is active, the presenter id is truthy
and differs from the joining member's account id, and the presenter has a
session in the room (the first matching one), the join emits exactly one
presentation_started event to the joiner (with the presenter's identity and
name) and exactly one new_viewer event to that presenter session. -/
theorem c5_late_join_replay (room : Room) (joiner : User) (pid : String)
    (pr : String × User)
    (h1 : room.activePresenter = some pid) (h2 : pid ≠ "")
    (h3 : pid ≠ joiner.userId)
    (h4 : room.users.find? (fun p => p.2.userId == pid) = some pr) :
    lateJoinNotices room joiner =
      [(joiner.ws, OutEvent.presentationStarted pid pr.2.name),
       (pr.2.ws, OutEvent.newViewer joiner.userId joiner.name)] := by
  unfold lateJoinNotices
  simp [h1, h2, h3, h4]

/-- C5 witness. -/
theorem c5_late_join_replay_witness :
    lateJoinNotices roomPresAB uBob =
      [("w2", OutEvent.presentationStarted "A" "Alice"),
       ("w1", OutEvent.newViewer "B" "Bob")] :=
  c5_late_join_replay roomPresAB uBob "A" ("c1", uAlice)
    rfl (by decide) (by decide) (by decide)

/-! ## Claim C7 — join/leave system notices -/

/-- C7 (counterexample): the join notice is broadcast with no excluded user,
so the joiner (already a member at that point) receives their own join
notice, refuting "the actor never receives their own join/leave notice". -/
theorem c7_counterexample :
    (joinNotice roomAB "Bob").filter (fun e => e.1 == uBob.ws) =
      [("w2", OutEvent.systemMsg "Bob joined the room")] := by
  decide

/-- C7 (amended): the join notice is delivered to every current member
including the joining actor; the leave notice is delivered to the remaining
members except any session sharing the leaver's account id (the leaver's own
session is already gone from the member map when it is sent). -/
theorem c7_system_notices (room : Room) (joinerName : String) (leaver : User)
    (h : leaver.userId ≠ "") :
    (joinNotice room joinerName).map Prod.fst =
      room.users.map (fun p => p.2.ws) ∧
    broadcastSystemMessage room (leaver.name ++ " left the room")
        (some leaver.userId) =
      (room.users.filter (fun p => p.2.userId != leaver.userId)).map
        (fun p => (p.2.ws, OutEvent.systemMsg (leaver.name ++ " left the room"))) := by
  constructor
  · simp [joinNotice, broadcastSystemMessage, excludedBy]
  · unfold broadcastSystemMessage
    congr 1
    apply List.filter_congr
    intro p _
    simp [excludedBy, h, bne]

/-- C7 witness. -/
theorem c7_system_notices_witness :
    (uBob.userId ≠ "") ∧
    ((joinNotice roomAB "Bob").map Prod.fst =
       roomAB.users.map (fun p => p.2.ws) ∧
     broadcastSystemMessage roomAB (uBob.name ++ " left the room")
         (some uBob.userId) =
       (roomAB.users.filter (fun p => p.2.userId != uBob.userId)).map
         (fun p => (p.2.ws, OutEvent.systemMsg (uBob.name ++ " left the room")))) :=
  ⟨by decide, c7_system_notices roomAB "Bob" uBob (by decide)⟩

/-! ## Dispatcher helper lemmas (claims C1, C2, C6) -/

/-- The text a target group ends up with before synthesis: the original when
source and target canonical codes coincide, else the oracle's translation. -/
def groupText (oc : Oracles) (srcClean text tgtClean : String) : String :=
  if srcClean = tgtClean then text else oc.translate text srcClean tgtClean

/-- An oracle that leaves text unchanged and always synthesizes no file. -/
def ocEcho : Oracles :=
  { translate := fun t _ _ => t, tts := fun _ _ => Except.ok none }

/-- Carla, account id C, browser tag en-US (canonical code en). -/
def uCarla : User := exUser "w3" "c3" "C" "en-US" "Carla"

/-- The collaborator calls of one group's processing: one translation call
unless source and target coincide, then always exactly one synthesis call on
the group's text. -/
theorem processGroup_calls (oc : Oracles) (roomId srcClean text tgtClean : String) :
    (processGroup oc roomId srcClean text tgtClean).1 =
      (if srcClean = tgtClean then []
       else [CallEvent.translateCall text srcClean tgtClean]) ++
      [CallEvent.ttsCall (groupText oc srcClean text tgtClean) tgtClean] := by
  unfold processGroup groupText
  by_cases h : srcClean = tgtClean
  · simp only [if_pos h]
    cases oc.tts text tgtClean with
    | ok a => rfl
    | error e => rfl
  · simp only [if_neg h]
    cases oc.tts (oc.translate text srcClean tgtClean) tgtClean with
    | ok a => rfl
    | error e => rfl

/-- When the synthesis call for a group raises, the group's data falls back
to the original text with no audio (the except arm of the source). -/
theorem processGroup_tts_error (oc : Oracles)
    (roomId srcClean text tgtClean : String) (e : Unit)
    (h : oc.tts (groupText oc srcClean text tgtClean) tgtClean =
      Except.error e) :
    (processGroup oc roomId srcClean text tgtClean).2 =
      { translatedText := text, audioUrl := none } := by
  unfold processGroup
  unfold groupText at h
  by_cases hc : srcClean = tgtClean
  · simp only [if_pos hc] at h ⊢
    rw [h]
  · simp only [if_neg hc] at h ⊢
    rw [h]

/-- Looking a key up in an association list whose entries are generated from
their own keys yields the generating function at that key. -/
theorem dictGet_map_self {α β : Type} (l : List (String × α)) (f : String → β)
    (k : String) (hk : k ∈ l.map Prod.fst) :
    dictGet k (l.map (fun g => (g.1, f g.1))) = some (f k) := by
  induction l with
  | nil => simp at hk
  | cons a t ih =>
      rw [List.map_cons]
      unfold dictGet
      by_cases h : a.1 = k
      · rw [if_pos h, h]
      · rw [if_neg h]
        apply ih
        rw [List.map_cons] at hk
        rcases List.mem_cons.mp hk with h1 | h2
        · exact absurd h1.symm h
        · exact h2

/-- Members of a group produced by `insertGroup` satisfy the accumulated
invariant: they come from the inserted element or the accumulator, and their
canonical language is their group's key. -/
theorem insertGroup_inv {P : User → Prop} (l : String) (u : User)
    (acc : List (String × List User))
    (hacc : ∀ g ∈ acc, ∀ v ∈ g.2, P v ∧ cleanLang v.language = g.1)
    (hu : P u) (hl : cleanLang u.language = l) :
    ∀ g ∈ insertGroup l u acc, ∀ v ∈ g.2, P v ∧ cleanLang v.language = g.1 := by
  induction acc with
  | nil =>
      intro g hg v hv
      simp only [insertGroup, List.mem_singleton] at hg
      subst hg
      simp only [List.mem_singleton] at hv
      subst hv
      exact ⟨hu, hl⟩
  | cons a t ih =>
      intro g hg v hv
      unfold insertGroup at hg
      by_cases hk : a.1 = l
      · rw [if_pos hk] at hg
        rcases List.mem_cons.mp hg with h1 | h2
        · subst h1
          rcases List.mem_append.mp hv with hv1 | hv2
          · exact hacc a (List.mem_cons_self a t) v hv1
          · rw [List.mem_singleton.mp hv2]
            exact ⟨hu, by rw [hl, ← hk]⟩
        · exact hacc g (List.mem_cons_of_mem a h2) v hv
      · rw [if_neg hk] at hg
        rcases List.mem_cons.mp hg with h1 | h2
        · subst h1
          exact hacc a (List.mem_cons_self a t) v hv
        · exact ih (fun g hg => hacc g (List.mem_cons_of_mem a hg)) g h2 v hv

/-- Generalized soundness of the grouping fold. -/
theorem groupByLang_aux {P : User → Prop} :
    ∀ (users : List User) (acc : List (String × List User)),
      (∀ g ∈ acc, ∀ v ∈ g.2, P v ∧ cleanLang v.language = g.1) →
      (∀ v ∈ users, P v) →
      ∀ g ∈ users.foldl (fun a u => insertGroup (cleanLang u.language) u a) acc,
        ∀ v ∈ g.2, P v ∧ cleanLang v.language = g.1 := by
  intro users
  induction users with
  | nil =>
      intro acc hacc _
      simpa using hacc
  | cons u t ih =>
      intro acc hacc hus
      rw [List.foldl_cons]
      exact ih _
        (insertGroup_inv (cleanLang u.language) u acc hacc
          (hus u (List.mem_cons_self u t)) rfl)
        (fun v hv => hus v (List.mem_cons_of_mem u hv))

/-- Every member of a language group is a member of the snapshot, and its
canonical language code is the group's key. -/
theorem groupByLang_sound (users : List User) :
    ∀ g ∈ groupByLang users, ∀ v ∈ g.2,
      v ∈ users ∧ cleanLang v.language = g.1 :=
  groupByLang_aux users [] (by simp) (fun _ hv => hv)

/-- Characterization of the dispatcher's deliveries: each group's members
receive the message built from that group's processing result. -/
theorem broadcast_sends (oc : Oracles) (roomId : String) (sender : User)
    (text srcLang : String) (users : List User) :
    (broadcastTranslation oc roomId sender text srcLang users).2 =
      (groupByLang users).flatMap (fun g =>
        g.2.map (fun u => (u.connectionId,
          mkMessage roomId sender text srcLang
            (processGroup oc roomId (cleanLang srcLang) text g.1).2 u))) := by
  unfold broadcastTranslation
  simp only [List.map_map]
  apply List.flatMap_congr
  intro g hg
  rw [show ((groupByLang users).map
        ((fun r => (r.1, r.2.2)) ∘
          (fun g => (g.1, processGroup oc roomId (cleanLang srcLang) text g.1)))) =
      ((groupByLang users).map (fun g => (g.1,
        (fun k => (processGroup oc roomId (cleanLang srcLang) text k).2) g.1)))
      from rfl]
  rw [dictGet_map_self (groupByLang users)
      (fun k => (processGroup oc roomId (cleanLang srcLang) text k).2) g.1
      (List.mem_map_of_mem Prod.fst hg)]

/-- Every delivered pair comes from a member of the snapshot, carries that
member's connection id, and is the message built from that member's own
language group's processing result. -/
theorem broadcast_mem (oc : Oracles) (roomId : String) (sender : User)
    (text srcLang : String) (users : List User) (cid : String) (m : Message)
    (h : (cid, m) ∈ (broadcastTranslation oc roomId sender text srcLang users).2) :
    ∃ u, u ∈ users ∧ cid = u.connectionId ∧
      m = mkMessage roomId sender text srcLang
            (processGroup oc roomId (cleanLang srcLang) text
              (cleanLang u.language)).2 u := by
  rw [broadcast_sends] at h
  rcases List.mem_flatMap.mp h with ⟨g, hg, hmem⟩
  rcases List.mem_map.mp hmem with ⟨u, hu, hue⟩
  have hinv := groupByLang_sound users g hg u hu
  have hfst : u.connectionId = cid := congrArg Prod.fst hue
  have hsnd : mkMessage roomId sender text srcLang
      (processGroup oc roomId (cleanLang srcLang) text g.1).2 u = m :=
    congrArg Prod.snd hue
  refine ⟨u, hinv.1, hfst.symm, ?_⟩
  rw [← hsnd, hinv.2]

/-! ## Claim C6 — is_self compares account ids, not sessions -/

/-- C6 (counterexample): with two simultaneous connections of the same
account in the room (sender on connection c1), the message delivered to the
other connection c2 — a session that is NOT the sender session — carries
is_self = true, refuting "is_self is true if and only if the receiving
member session IS the sender session". -/
theorem c6_counterexample :
    ((broadcastTranslation ocEcho "R1" uAlice "hi" "en" [uAlice, uAliceBis]).2.map
        (fun p => (p.1, p.2.isSelf))) = [("c1", true), ("c2", true)] ∧
    uAliceBis.connectionId ≠ uAlice.connectionId :=
  ⟨by decide, by decide⟩

/-- C6 (amended): for every delivered message event, is_self is true exactly
when the receiving member's ACCOUNT id equals the sender's account id — so
every simultaneous connection of the sender's account gets is_self = true,
not only the sender's own session. -/
theorem c6_is_self_account_level (oc : Oracles) (roomId : String)
    (sender : User) (text srcLang : String) (users : List User)
    (cid : String) (m : Message)
    (h : (cid, m) ∈ (broadcastTranslation oc roomId sender text srcLang users).2) :
    ∃ u, u ∈ users ∧ cid = u.connectionId ∧
      m.isSelf = (u.userId == sender.userId) := by
  rcases broadcast_mem oc roomId sender text srcLang users cid m h with
    ⟨u, hu, hcid, hm⟩
  exact ⟨u, hu, hcid, by rw [hm]; rfl⟩

/-- C6 witness. -/
theorem c6_is_self_account_level_witness :
    (("c2", mkMessage "R1" uAlice "hi" "en"
        (processGroup ocEcho "R1" "en" "hi" "en").2 uAliceBis) ∈
      (broadcastTranslation ocEcho "R1" uAlice "hi" "en" [uAlice, uAliceBis]).2) ∧
    (∃ u, u ∈ [uAlice, uAliceBis] ∧ "c2" = u.connectionId ∧
      (mkMessage "R1" uAlice "hi" "en"
        (processGroup ocEcho "R1" "en" "hi" "en").2 uAliceBis).isSelf =
        (u.userId == uAlice.userId)) :=
  ⟨by decide,
   c6_is_self_account_level ocEcho "R1" uAlice "hi" "en" [uAlice, uAliceBis]
     "c2" (mkMessage "R1" uAlice "hi" "en"
       (processGroup ocEcho "R1" "en" "hi" "en").2 uAliceBis) (by decide)⟩

/-! ## Claim C2 — synthesizer failure and per-group degradation -/

/-- An oracle whose translation to any target is "bonjour" and whose
synthesizer raises exactly for French. -/
def ocC2 : Oracles :=
  { translate := fun _ _ _ => "bonjour",
    tts := fun _ l => if l == "fr" then Except.error () else Except.ok (some "p") }

/-- C2 (counterexample): sender speaks en, the fr group's translation
succeeds ("bonjour") but its synthesis raises; the delivered fr message has
no audio, yet its translated_text is the ORIGINAL "hello", not the group's
translated text "bonjour" — the except arm discards the translation — while
the en group still gets its audio.  This refutes "the message events ...
still carry that group's translated text unchanged". -/
theorem c2_counterexample :
    ((broadcastTranslation ocC2 "R1" uAlice "hello" "en" [uAlice, uBob]).2.map
        (fun p => (p.1, p.2.translatedText, p.2.audioUrl))) =
      [("c1", "hello", some "/audio/tts_R1_en.mp3"), ("c2", "hello", none)] ∧
    ocC2.translate "hello" "en" "fr" = "bonjour" ∧
    ("hello" : String) ≠ "bonjour" :=
  ⟨by decide, rfl, by decide⟩

/-- C2 (amended): every delivered message is determined by its recipient's
own language group's processing alone (so one group's failure cannot affect
another group's deliveries), and whenever the synthesis call for the
recipient's group raises, the delivered message has an absent audio
reference and carries the ORIGINAL text (the group's translated text is
discarded by the fallback), not the translation. -/
theorem c2_tts_failure_degraded_delivery (oc : Oracles) (roomId : String)
    (sender : User) (text srcLang : String) (users : List User)
    (cid : String) (m : Message)
    (h : (cid, m) ∈ (broadcastTranslation oc roomId sender text srcLang users).2) :
    ∃ u, u ∈ users ∧ cid = u.connectionId ∧
      m = mkMessage roomId sender text srcLang
            (processGroup oc roomId (cleanLang srcLang) text
              (cleanLang u.language)).2 u ∧
      (∀ e, oc.tts (groupText oc (cleanLang srcLang) text (cleanLang u.language))
            (cleanLang u.language) = Except.error e →
        m.audioUrl = none ∧ m.translatedText = text) := by
  rcases broadcast_mem oc roomId sender text srcLang users cid m h with
    ⟨u, hu, hcid, hm⟩
  refine ⟨u, hu, hcid, hm, ?_⟩
  intro e he
  have hpg := processGroup_tts_error oc roomId (cleanLang srcLang) text
    (cleanLang u.language) e he
  rw [hm, hpg]
  exact ⟨rfl, rfl⟩

/-- C2 witness. -/
theorem c2_tts_failure_degraded_delivery_witness :
    (("c2", mkMessage "R1" uAlice "hello" "en"
        (processGroup ocC2 "R1" "en" "hello" "fr").2 uBob) ∈
      (broadcastTranslation ocC2 "R1" uAlice "hello" "en" [uAlice, uBob]).2) ∧
    (∃ u, u ∈ [uAlice, uBob] ∧ "c2" = u.connectionId ∧
      (mkMessage "R1" uAlice "hello" "en"
          (processGroup ocC2 "R1" "en" "hello" "fr").2 uBob) =
        mkMessage "R1" uAlice "hello" "en"
          (processGroup ocC2 "R1" (cleanLang "en") "hello"
            (cleanLang u.language)).2 u ∧
      (∀ e, ocC2.tts (groupText ocC2 (cleanLang "en") "hello"
            (cleanLang u.language)) (cleanLang u.language) = Except.error e →
        (mkMessage "R1" uAlice "hello" "en"
          (processGroup ocC2 "R1" "en" "hello" "fr").2 uBob).audioUrl = none ∧
        (mkMessage "R1" uAlice "hello" "en"
          (processGroup ocC2 "R1" "en" "hello" "fr").2 uBob).translatedText =
          "hello")) :=
  ⟨by decide,
   c2_tts_failure_degraded_delivery ocC2 "R1" uAlice "hello" "en"
     [uAlice, uBob] "c2"
     (mkMessage "R1" uAlice "hello" "en"
       (processGroup ocC2 "R1" "en" "hello" "fr").2 uBob) (by decide)⟩

/-! ## Claim C1 — dedup of translation/synthesis work for {en, en, fr} -/

/-- C1 (counterexample): in a room with canonical member codes en, en, fr
and an en sender, the Speech Synthesizer IS called for the identity group
"en" — once, not zero times as claimed: the source skips only translation
for the identity passthrough and synthesizes audio for every distinct
group. -/
theorem c1_counterexample :
    countTts "en" (broadcastTranslation ocEcho "R1" uAlice "hello" "en"
        [uAlice, uCarla, uBob]).1 = 1 ∧
    countTts "en" (broadcastTranslation ocEcho "R1" uAlice "hello" "en"
        [uAlice, uCarla, uBob]).1 ≠ 0 :=
  ⟨by decide, by decide⟩

/-- C1 (amended): for a speech event from an en sender in a room whose
member snapshot has canonical codes en, en, fr (in that order), the
Translation Oracle is called exactly once, for the target group fr, and
never for en (identity passthrough); the Speech Synthesizer is called
exactly once for EACH distinct target group — once for fr and also once for
en; and exactly 3 message events are delivered, one to each member's
connection. -/
theorem c1_en_en_fr_fanout (oc : Oracles) (roomId text : String)
    (sender u1 u2 u3 : User)
    (hs : cleanLang sender.language = "en")
    (h1 : cleanLang u1.language = "en") (h2 : cleanLang u2.language = "en")
    (h3 : cleanLang u3.language = "fr") :
    countTranslate "fr" (broadcastTranslation oc roomId sender text
        sender.language [u1, u2, u3]).1 = 1 ∧
    countTranslate "en" (broadcastTranslation oc roomId sender text
        sender.language [u1, u2, u3]).1 = 0 ∧
    countTts "fr" (broadcastTranslation oc roomId sender text
        sender.language [u1, u2, u3]).1 = 1 ∧
    countTts "en" (broadcastTranslation oc roomId sender text
        sender.language [u1, u2, u3]).1 = 1 ∧
    (broadcastTranslation oc roomId sender text
        sender.language [u1, u2, u3]).2.map Prod.fst =
      [u1.connectionId, u2.connectionId, u3.connectionId] := by
  have hg : groupByLang [u1, u2, u3] = [("en", [u1, u2]), ("fr", [u3])] := by
    unfold groupByLang
    rw [List.foldl_cons, List.foldl_cons, List.foldl_cons, List.foldl_nil,
      h1, h2, h3]
    rfl
  have hcalls : (broadcastTranslation oc roomId sender text
      sender.language [u1, u2, u3]).1 =
      [CallEvent.ttsCall text "en",
       CallEvent.translateCall text "en" "fr",
       CallEvent.ttsCall (oc.translate text "en" "fr") "fr"] := by
    unfold broadcastTranslation
    rw [hg, hs]
    simp [processGroup_calls, groupText]
  refine ⟨?_, ?_, ?_, ?_, ?_⟩
  · rw [hcalls]; simp [countTranslate]
  · rw [hcalls]; simp [countTranslate]
  · rw [hcalls]; simp [countTts]
  · rw [hcalls]; simp [countTts]
  · rw [broadcast_sends, hg]
    simp

/-- C1 witness. -/
theorem c1_en_en_fr_fanout_witness :
    (cleanLang uAlice.language = "en" ∧ cleanLang uCarla.language = "en" ∧
     cleanLang uBob.language = "fr") ∧
    (countTranslate "fr" (broadcastTranslation ocEcho "R1" uAlice "hello"
        uAlice.language [uAlice, uCarla, uBob]).1 = 1 ∧
     countTranslate "en" (broadcastTranslation ocEcho "R1" uAlice "hello"
        uAlice.language [uAlice, uCarla, uBob]).1 = 0 ∧
     countTts "fr" (broadcastTranslation ocEcho "R1" uAlice "hello"
        uAlice.language [uAlice, uCarla, uBob]).1 = 1 ∧
     countTts "en" (broadcastTranslation ocEcho "R1" uAlice "hello"
        uAlice.language [uAlice, uCarla, uBob]).1 = 1 ∧
     (broadcastTranslation ocEcho "R1" uAlice "hello"
        uAlice.language [uAlice, uCarla, uBob]).2.map Prod.fst =
       [uAlice.connectionId, uCarla.connectionId, uBob.connectionId]) :=
  ⟨⟨by decide, by decide, by decide⟩,
   c1_en_en_fr_fanout ocEcho "R1" "hello" uAlice uAlice uCarla uBob
     (by decide) (by decide) (by decide) (by decide)⟩

end Tradutor
